import Mathlib

/-!
# MoveSemantics: a verification development for `move_semantics_lib.cpp`

The C++ class `MoveSemantics::MoveDemo` owns a `std::string name_`, a
`std::vector<int> data_` and a `std::unique_ptr<int> ptr_`.  Its special member
functions print a trace line on `std::cout`.

Embedding.

* An object is a record `MoveDemo`; `std::vector<int>` is `List Int`,
  `std::unique_ptr<int>` is `Option Int` (`none` is the null pointer).  No
  arithmetic is done on the integers, so `Int` stands for `int`.
* Objects have identity (`this != &other` is an address comparison), so they live
  in a store `World.mem : Addr → Option MoveDemo`; `none` means that no live
  `MoveDemo` is at that address.  `World.cout` is the text written so far.
* A member function is a function `World → Addr → ... → World`.  A reference
  parameter always denotes a live object in C++; at an address without a live
  object the model leaves the world as it is.
* The standard library is not part of the repository.  `std::move` out of a
  `std::string`, a `std::vector<int>` and a `std::unique_ptr<int>` is modelled as
  every mainstream standard library implements it: the target receives the
  contents and the source is left empty (`""`, `{}`, `nullptr`).
* `operator<<` on a `size_t` prints the decimal numeral, `toString` on `Nat`.
* A demonstration procedure is `void f()`: its only lasting effect is on `std::cout`, so
  it is a function from the stream text before the call to the stream text after it.
  Its locals live in its own frame (a store that starts empty) and are destroyed in
  reverse order of construction on return.
* `create_demo` returns a prvalue, which initialises the caller's object directly
  (guaranteed copy elision), so no move constructor runs there.
-/

namespace MoveSemantics

set_option maxRecDepth 100000

/-- An address of an object. -/
abbrev Addr := Nat

/-- The data members of `class MoveDemo`. -/
structure MoveDemo where
  name_ : String
  data_ : List Int
  ptr_ : Option Int
  deriving DecidableEq

/-- The store of live `MoveDemo` objects together with the text on `std::cout`. -/
structure World where
  mem : Addr → Option MoveDemo
  cout : String

/-- The world before anything ran: no object, given text on the stream. -/
def World.init (out : String) : World := ⟨fun _ => none, out⟩

/-- Writes the object `o` at address `a`. -/
def World.set (w : World) (a : Addr) (o : MoveDemo) : World :=
  ⟨fun b => if b = a then some o else w.mem b, w.cout⟩

/-- Ends the lifetime of the object at address `a`. -/
def World.free (w : World) (a : Addr) : World :=
  ⟨fun b => if b = a then none else w.mem b, w.cout⟩

/-- The statement `std::cout << s`. -/
def World.print (w : World) (s : String) : World :=
  ⟨w.mem, w.cout ++ s⟩

/-- Models `std::move` out of a `std::string`: what the target receives and what the source
keeps. -/
def std_move_string (s : String) : String × String := (s, "")

/-- Models `std::move` out of a `std::vector<int>`: what the target receives and what the
source keeps. -/
def std_move_vector (v : List Int) : List Int × List Int := (v, [])

/-- Models `std::move` out of a `std::unique_ptr<int>`: what the target receives and what the
source keeps. -/
def std_move_unique_ptr (p : Option Int) : Option Int × Option Int := (p, none)

/-- Source function
`MoveDemo::MoveDemo(const std::string& name, const std::vector<int>& data, int ptr_value)`. -/
def MoveDemo.ctor (w : World) (this : Addr) (name : String) (data : List Int)
    (ptr_value : Int) : World :=
  let self : MoveDemo := ⟨name, data, some ptr_value⟩
  (w.set this self).print
    ("  [Constructor] Created '" ++ self.name_ ++ "' with " ++ toString self.data_.length
      ++ " elements\n")

/-- Source function `MoveDemo::MoveDemo(const MoveDemo& other)`. -/
def MoveDemo.copy_ctor (w : World) (this other : Addr) : World :=
  match w.mem other with
  | none => w
  | some o =>
    let self : MoveDemo :=
      ⟨o.name_, o.data_, match o.ptr_ with | some v => some v | none => none⟩
    (w.set this self).print
      ("  [Copy Constructor] Copied '" ++ self.name_ ++ "' with " ++ toString self.data_.length
        ++ " elements\n")

/-- Source function `MoveDemo::MoveDemo(MoveDemo&& other) noexcept`: the three member
initialisers move out of `other`, then the body prints `other.name_` and overwrites it. -/
def MoveDemo.move_ctor (w : World) (this other : Addr) : World :=
  match w.mem other with
  | none => w
  | some o =>
    let n := std_move_string o.name_
    let d := std_move_vector o.data_
    let p := std_move_unique_ptr o.ptr_
    let self : MoveDemo := ⟨n.1, d.1, p.1⟩
    let o1 : MoveDemo := ⟨n.2, d.2, p.2⟩
    let w1 := (w.set this self).set other o1
    let w2 := w1.print ("  [Move Constructor] Moved from '" ++ o1.name_ ++ "' (now empty)\n")
    w2.set other { o1 with name_ := "[moved-from]" }

/-- Source function `MoveDemo& MoveDemo::operator=(const MoveDemo& other)`. -/
def MoveDemo.copy_assign (w : World) (this other : Addr) : World :=
  match w.mem this, w.mem other with
  | some _, some o =>
    if this ≠ other then
      let self : MoveDemo :=
        ⟨o.name_, o.data_, match o.ptr_ with | some v => some v | none => none⟩
      (w.set this self).print
        ("  [Copy Assignment] Copied '" ++ self.name_ ++ "' with " ++ toString self.data_.length
          ++ " elements\n")
    else w
  | _, _ => w

/-- Source function `MoveDemo& MoveDemo::operator=(MoveDemo&& other) noexcept`. -/
def MoveDemo.move_assign (w : World) (this other : Addr) : World :=
  match w.mem this, w.mem other with
  | some _, some o =>
    if this ≠ other then
      let n := std_move_string o.name_
      let d := std_move_vector o.data_
      let p := std_move_unique_ptr o.ptr_
      let self : MoveDemo := ⟨n.1, d.1, p.1⟩
      let o1 : MoveDemo := ⟨n.2, d.2, p.2⟩
      let w1 := (w.set this self).set other o1
      let w2 := w1.print ("  [Move Assignment] Moved from '" ++ o1.name_ ++ "' (now empty)\n")
      w2.set other { o1 with name_ := "[moved-from]" }
    else w
  | _, _ => w

/-- Source function `MoveDemo::~MoveDemo()`: prints the current label; the members are
released after it. -/
def MoveDemo.dtor (w : World) (this : Addr) : World :=
  match w.mem this with
  | none => w
  | some self => (w.print ("  [Destructor] Destroying '" ++ self.name_ ++ "'\n")).free this

/-- The text `MoveDemo::print_state` writes for an object. -/
def MoveDemo.state_text (self : MoveDemo) : String :=
  "  Object '" ++ self.name_ ++ "': " ++ toString self.data_.length ++ " elements, "
    ++ (if self.ptr_.isSome then "valid pointer" else "null pointer") ++ "\n"

/-- Source function `void MoveDemo::print_state() const`. -/
def MoveDemo.print_state (w : World) (this : Addr) : World :=
  match w.mem this with
  | none => w
  | some self => w.print self.state_text

/-- Source function `bool MoveDemo::is_moved_from() const`. -/
def MoveDemo.is_moved_from (self : MoveDemo) : Bool :=
  self.name_ == "[moved-from]" || (self.data_.isEmpty && !self.ptr_.isSome)

/-- Source function `const std::string& MoveDemo::get_name() const`. -/
def MoveDemo.get_name (self : MoveDemo) : String := self.name_

/-- Source function `MoveDemo create_demo(const std::string& name)`: the returned prvalue
initialises the caller's object at `result` directly. -/
def create_demo (w : World) (result : Addr) (name : String) : World :=
  let w := w.print "Creating demo object in factory function...\n"
  let data : List Int := [1, 2, 3, 4, 5]
  MoveDemo.ctor w result name data 42

/-- Source function `void process_demo(MoveDemo demo)`: `demo` is the address of the by-value
parameter, which the caller initialised; it is destroyed when the call is over. -/
def process_demo (w : World) (demo : Addr) : World :=
  let w := w.print "Processing demo object...\n"
  let w := MoveDemo.print_state w demo
  MoveDemo.dtor w demo

/-- Source function `void demonstrate_copy_vs_move()`: the locals `original`, `copied`, `moved` are
destroyed in reverse order of construction when the function returns. -/
def demonstrate_copy_vs_move (out : String) : String :=
  let original : Addr := 0
  let copied : Addr := 1
  let moved : Addr := 2
  let w := (World.init out).print "\n=== COPY vs MOVE DEMONSTRATION ===\n"
  let w := w.print "\n1. Creating original object:\n"
  let data : List Int := [10, 20, 30, 40, 50]
  let w := MoveDemo.ctor w original "Original" data 100
  let w := MoveDemo.print_state w original
  let w := w.print "\n2. Copy construction:\n"
  let w := MoveDemo.copy_ctor w copied original
  let w := w.print "After copy - Original: "
  let w := MoveDemo.print_state w original
  let w := w.print "After copy - Copy: "
  let w := MoveDemo.print_state w copied
  let w := w.print "\n3. Move construction:\n"
  let w := MoveDemo.move_ctor w moved original
  let w := w.print "After move - Original: "
  let w := MoveDemo.print_state w original
  let w := w.print "After move - Moved: "
  let w := MoveDemo.print_state w moved
  let w := MoveDemo.dtor w moved
  let w := MoveDemo.dtor w copied
  let w := MoveDemo.dtor w original
  w.cout

/-- Source function `void demonstrate_move_constructor()`. -/
def demonstrate_move_constructor (out : String) : String :=
  let source : Addr := 0
  let destination : Addr := 1
  let w := (World.init out).print "\n=== MOVE CONSTRUCTOR DEMONSTRATION ===\n"
  let w := w.print "\nCreating object and moving it:\n"
  let data : List Int := [1, 2, 3, 4, 5]
  let w := MoveDemo.ctor w source "Source" data 50
  let w := w.print "\nBefore move:\n"
  let w := MoveDemo.print_state w source
  let w := w.print "\nPerforming move:\n"
  let w := MoveDemo.move_ctor w destination source
  let w := w.print "\nAfter move:\n"
  let w := w.print "Source: "
  let w := MoveDemo.print_state w source
  let w := w.print "Destination: "
  let w := MoveDemo.print_state w destination
  let w := MoveDemo.dtor w destination
  let w := MoveDemo.dtor w source
  w.cout

/-- Source function `void demonstrate_move_assignment()`. -/
def demonstrate_move_assignment (out : String) : String :=
  let obj1 : Addr := 0
  let obj2 : Addr := 1
  let w := (World.init out).print "\n=== MOVE ASSIGNMENT DEMONSTRATION ===\n"
  let w := w.print "\nCreating two objects:\n"
  let data1 : List Int := [1, 2, 3]
  let data2 : List Int := [4, 5, 6, 7]
  let w := MoveDemo.ctor w obj1 "Object1" data1 10
  let w := MoveDemo.ctor w obj2 "Object2" data2 20
  let w := w.print "\nBefore move assignment:\n"
  let w := MoveDemo.print_state w obj1
  let w := MoveDemo.print_state w obj2
  let w := w.print "\nPerforming move assignment (obj1 = std::move(obj2)):\n"
  let w := MoveDemo.move_assign w obj1 obj2
  let w := w.print "\nAfter move assignment:\n"
  let w := w.print "obj1: "
  let w := MoveDemo.print_state w obj1
  let w := w.print "obj2: "
  let w := MoveDemo.print_state w obj2
  let w := MoveDemo.dtor w obj2
  let w := MoveDemo.dtor w obj1
  w.cout

/-- Source function `void demonstrate_rvalue_references()`: `param` is the by-value parameter of
`process_demo`, move-constructed from `demo`. -/
def demonstrate_rvalue_references (out : String) : String :=
  let demo : Addr := 0
  let param : Addr := 1
  let w := (World.init out).print "\n=== RVALUE REFERENCES DEMONSTRATION ===\n"
  let w := w.print "\nFunction returning by value (RVO/move):\n"
  let w := create_demo w demo "Factory"
  let w := MoveDemo.print_state w demo
  let w := w.print "\nPassing by value (move):\n"
  let w := MoveDemo.move_ctor w param demo
  let w := process_demo w param
  let w := w.print "\nAfter passing to function:\n"
  let w := MoveDemo.print_state w demo
  let w := MoveDemo.dtor w demo
  w.cout

/-- Source function `void demonstrate_std_move()`: no `MoveDemo` is involved. -/
def demonstrate_std_move (out : String) : String :=
  let w := (World.init out).print "\n=== STD::MOVE DEMONSTRATION ===\n"
  let w := w.print "\nCreating vector and moving it:\n"
  let vec : List Int := [1, 2, 3, 4, 5]
  let w := w.print ("Original vector size: " ++ toString vec.length ++ "\n")
  let m := std_move_vector vec
  let moved_vec := m.1
  let vec := m.2
  let w := w.print "After std::move:\n"
  let w := w.print ("Original vector size: " ++ toString vec.length ++ "\n")
  let w := w.print ("Moved vector size: " ++ toString moved_vec.length ++ "\n")
  let w := w.print "\nNote: std::move doesn't actually move anything!\n"
  let w := w.print "It just casts to rvalue reference, enabling move semantics.\n"
  w.cout

/-- The instance `perfect_forward_demo<MoveDemo>(MoveDemo&& value)`: `std::forward`
passes `value` on as an rvalue, so the parameter `param` of `process_demo` is
move-constructed from it. -/
def perfect_forward_demo (w : World) (value param : Addr) : World :=
  let w := w.print "Forwarding value...\n"
  let w := MoveDemo.move_ctor w param value
  process_demo w param

/-- Source function `void demonstrate_perfect_forwarding()`. -/
def demonstrate_perfect_forwarding (out : String) : String :=
  let demo : Addr := 0
  let param : Addr := 1
  let w := (World.init out).print "\n=== PERFECT FORWARDING DEMONSTRATION ===\n"
  let w := w.print "\nCreating object for forwarding:\n"
  let data : List Int := [7, 8, 9]
  let w := MoveDemo.ctor w demo "Forwarded" data 77
  let w := w.print "\nPerfect forwarding with std::move:\n"
  let w := perfect_forward_demo w demo param
  let w := w.print "\nAfter perfect forwarding:\n"
  let w := MoveDemo.print_state w demo
  let w := MoveDemo.dtor w demo
  w.cout

/-- Source function `void run_all_demonstrations()`. -/
def run_all_demonstrations (out : String) : String :=
  let out := out ++ "========================================\n"
  let out := out ++ "    C++ MOVE SEMANTICS EDUCATIONAL DEMO\n"
  let out := out ++ "========================================\n"
  let out := demonstrate_copy_vs_move out
  let out := demonstrate_move_constructor out
  let out := demonstrate_move_assignment out
  let out := demonstrate_rvalue_references out
  let out := demonstrate_std_move out
  let out := demonstrate_perfect_forwarding out
  let out := out ++ "\n========================================\n"
  let out := out ++ "         DEMONSTRATIONS COMPLETE\n"
  let out := out ++ "========================================\n"
  let out := out ++ "\nKey Takeaways:\n"
  let out := out ++ "• Move semantics transfer ownership instead of copying\n"
  let out := out ++ "• Moved-from objects are in a valid but unspecified state\n"
  let out := out ++ "• std::move is just a cast to rvalue reference\n"
  let out := out ++ "• Move operations should be noexcept when possible\n"
  let out := out ++ "• Perfect forwarding preserves value categories\n"
  out

/-- One call of a public operation that creates, changes or ends a `MoveDemo`, with the
addresses it acts on.  `this` and `other` are arbitrary, so self-assignment is included. -/
inductive Op where
  | construct (this : Addr) (name : String) (data : List Int) (ptr_value : Int)
  | copy_construct (this other : Addr)
  | move_construct (this other : Addr)
  | copy_assign (this other : Addr)
  | move_assign (this other : Addr)
  | create (result : Addr) (name : String)
  | destroy (this : Addr)

/-- Performs one operation call. -/
def Op.run (w : World) : Op → World
  | .construct this name data ptr_value => MoveDemo.ctor w this name data ptr_value
  | .copy_construct this other => MoveDemo.copy_ctor w this other
  | .move_construct this other => MoveDemo.move_ctor w this other
  | .copy_assign this other => MoveDemo.copy_assign w this other
  | .move_assign this other => MoveDemo.move_assign w this other
  | .create result name => create_demo w result name
  | .destroy this => MoveDemo.dtor w this

/-- The world after a finite sequence of operation calls, started without any object. -/
def run_ops (ops : List Op) : World := ops.foldl Op.run (World.init "")

/-- The invariant of C10 for one object: an absent cell comes with the marker label and no
elements. -/
def MoveDemo.CellInv (o : MoveDemo) : Prop :=
  o.ptr_ = none → o.name_ = "[moved-from]" ∧ o.data_ = []

/-- Every live object of the world satisfies the invariant. -/
def World.CellInv (w : World) : Prop :=
  ∀ a o, w.mem a = some o → o.CellInv

/-- The test idiom `out.find(pat) != std::string::npos`: `pat` occurs in `out`. -/
def Contains (out pat : String) : Prop := pat.data <:+: out.data

instance (out pat : String) : Decidable (Contains out pat) :=
  inferInstanceAs (Decidable (pat.data <:+: out.data))

/-! ## Store lemmas -/

@[simp] theorem World.mem_set_same (w : World) (a : Addr) (o : MoveDemo) :
    (w.set a o).mem a = some o := by
  simp [World.set]

@[simp] theorem World.mem_set_other (w : World) (a b : Addr) (o : MoveDemo) (h : b ≠ a) :
    (w.set a o).mem b = w.mem b := by
  simp [World.set, h]

@[simp] theorem World.cout_set (w : World) (a : Addr) (o : MoveDemo) :
    (w.set a o).cout = w.cout := rfl

@[simp] theorem World.mem_print (w : World) (s : String) : (w.print s).mem = w.mem := rfl

@[simp] theorem World.cout_print (w : World) (s : String) : (w.print s).cout = w.cout ++ s := rfl

theorem copied_ptr (p : Option Int) :
    (match p with | some v => some v | none => none) = p := by
  cases p <;> rfl

/-- What the move constructor does to the store and to the stream. -/
theorem move_ctor_eq (w : World) (t v : Addr) (o : MoveDemo) (hv : w.mem v = some o) :
    MoveDemo.move_ctor w t v =
      (((w.set t o).set v ⟨"", [], none⟩).print
        "  [Move Constructor] Moved from '' (now empty)\n").set v
        ⟨"[moved-from]", [], none⟩ := by
  unfold MoveDemo.move_ctor
  rw [hv]
  rfl

/-- What move assignment between two distinct live objects does. -/
theorem move_assign_eq (w : World) (t v : Addr) (a b : MoveDemo) (ht : w.mem t = some a)
    (hv : w.mem v = some b) (hne : t ≠ v) :
    MoveDemo.move_assign w t v =
      (((w.set t b).set v ⟨"", [], none⟩).print
        "  [Move Assignment] Moved from '' (now empty)\n").set v
        ⟨"[moved-from]", [], none⟩ := by
  unfold MoveDemo.move_assign
  rw [ht, hv]
  simp only [ne_eq, hne, not_false_eq_true, if_true]
  rfl

/-- The sink `process_demo` only touches its own parameter object. -/
theorem process_demo_mem_other (w : World) (p a : Addr) (h : a ≠ p) :
    (process_demo w p).mem a = w.mem a := by
  unfold process_demo MoveDemo.print_state MoveDemo.dtor
  cases hp : w.mem p <;> simp [World.print, World.free, hp, h]

/-! ## The demonstrations only append to the stream -/

theorem demonstrate_copy_vs_move_append (out : String) :
    demonstrate_copy_vs_move out = out ++ demonstrate_copy_vs_move "" := by
  simp [demonstrate_copy_vs_move, MoveDemo.ctor, MoveDemo.copy_ctor, MoveDemo.move_ctor,
    MoveDemo.dtor, MoveDemo.print_state, World.init, World.print, World.set, World.free,
    String.append_assoc, std_move_string, std_move_vector, std_move_unique_ptr]

theorem demonstrate_move_constructor_append (out : String) :
    demonstrate_move_constructor out = out ++ demonstrate_move_constructor "" := by
  simp [demonstrate_move_constructor, MoveDemo.ctor, MoveDemo.move_ctor,
    MoveDemo.dtor, MoveDemo.print_state, World.init, World.print, World.set, World.free,
    String.append_assoc, std_move_string, std_move_vector, std_move_unique_ptr]

theorem demonstrate_move_assignment_append (out : String) :
    demonstrate_move_assignment out = out ++ demonstrate_move_assignment "" := by
  simp [demonstrate_move_assignment, MoveDemo.ctor, MoveDemo.move_assign,
    MoveDemo.dtor, MoveDemo.print_state, World.init, World.print, World.set, World.free,
    String.append_assoc, std_move_string, std_move_vector, std_move_unique_ptr]

theorem demonstrate_rvalue_references_append (out : String) :
    demonstrate_rvalue_references out = out ++ demonstrate_rvalue_references "" := by
  simp [demonstrate_rvalue_references, create_demo, process_demo, MoveDemo.ctor,
    MoveDemo.move_ctor, MoveDemo.dtor, MoveDemo.print_state, World.init, World.print,
    World.set, World.free, String.append_assoc, std_move_string, std_move_vector,
    std_move_unique_ptr]

theorem demonstrate_std_move_append (out : String) :
    demonstrate_std_move out = out ++ demonstrate_std_move "" := by
  simp [demonstrate_std_move, World.init, World.print, String.append_assoc, std_move_vector]

theorem demonstrate_perfect_forwarding_append (out : String) :
    demonstrate_perfect_forwarding out = out ++ demonstrate_perfect_forwarding "" := by
  simp [demonstrate_perfect_forwarding, perfect_forward_demo, process_demo, MoveDemo.ctor,
    MoveDemo.move_ctor, MoveDemo.dtor, MoveDemo.print_state, World.init, World.print,
    World.set, World.free, String.append_assoc, std_move_string, std_move_vector,
    std_move_unique_ptr]

/-! ## The claims -/

/-- C1. Move construction of a new object `t` from a live object `v` gives `t` exactly the
label, elements and cell `v` had, and leaves `v` with label `"[moved-from]"`, no elements
and no cell, so `v.is_moved_from()` holds; the same is true when the new object is the
by-value parameter of `process_demo`; no other object changes. -/
theorem move_ctor_transfers (w : World) (t v : Addr) (o : MoveDemo)
    (hv : w.mem v = some o) (hne : t ≠ v) :
    (MoveDemo.move_ctor w t v).mem t = some o ∧
    (MoveDemo.move_ctor w t v).mem v = some ⟨"[moved-from]", [], none⟩ ∧
    MoveDemo.is_moved_from ⟨"[moved-from]", [], none⟩ = true ∧
    (process_demo (MoveDemo.move_ctor w t v) t).mem v = some ⟨"[moved-from]", [], none⟩ ∧
    (∀ a, a ≠ t → a ≠ v → (MoveDemo.move_ctor w t v).mem a = w.mem a) := by
  have hvt : v ≠ t := fun h => hne h.symm
  rw [move_ctor_eq w t v o hv]
  refine ⟨?_, ?_, ?_, ?_, ?_⟩
  · simp [hne]
  · simp
  · decide
  · rw [process_demo_mem_other _ t v hvt]
    simp
  · intro a hat hav
    simp [hat, hav]

/-- C1, at the input of the test `MoveConstructor_MovesResourcesAndMarksSource`. -/
theorem move_ctor_transfers_witness :
    ((MoveDemo.ctor (World.init "") 0 "Src" [1, 2, 3] 99).mem 0
        = some ⟨"Src", [1, 2, 3], some 99⟩ ∧ (1 : Addr) ≠ 0) ∧
    (MoveDemo.move_ctor (MoveDemo.ctor (World.init "") 0 "Src" [1, 2, 3] 99) 1 0).mem 1
        = some ⟨"Src", [1, 2, 3], some 99⟩ ∧
    (MoveDemo.move_ctor (MoveDemo.ctor (World.init "") 0 "Src" [1, 2, 3] 99) 1 0).mem 0
        = some ⟨"[moved-from]", [], none⟩ :=
  have h := move_ctor_transfers (MoveDemo.ctor (World.init "") 0 "Src" [1, 2, 3] 99) 1 0
    ⟨"Src", [1, 2, 3], some 99⟩ (by simp [MoveDemo.ctor]) (by decide)
  ⟨⟨by simp [MoveDemo.ctor], by decide⟩, h.1, h.2.1⟩

/-- C2. Move assignment `t = std::move(v)` between two distinct live objects gives `t` the
label, elements and cell `v` had (whatever `t` held is gone), and leaves `v` with label
`"[moved-from]"`, no elements and no cell, so `v.is_moved_from()` holds; no other object
changes. -/
theorem move_assign_transfers (w : World) (t v : Addr) (a b : MoveDemo)
    (ht : w.mem t = some a) (hv : w.mem v = some b) (hne : t ≠ v) :
    (MoveDemo.move_assign w t v).mem t = some b ∧
    ((MoveDemo.move_assign w t v).mem t).map MoveDemo.get_name = some b.name_ ∧
    (MoveDemo.move_assign w t v).mem v = some ⟨"[moved-from]", [], none⟩ ∧
    MoveDemo.is_moved_from ⟨"[moved-from]", [], none⟩ = true ∧
    (∀ c, c ≠ t → c ≠ v → (MoveDemo.move_assign w t v).mem c = w.mem c) := by
  rw [move_assign_eq w t v a b ht hv hne]
  refine ⟨?_, ?_, ?_, ?_, ?_⟩
  · simp [hne]
  · simp [hne, MoveDemo.get_name]
  · simp
  · decide
  · intro c hct hcv
    simp [hct, hcv]

/-- C2, at the input of the test `MoveAssignment_MovesResourcesAndMarksSource`:
`A("A",{10,20},1)`, `B("B",{30,40,50},2)`, `A = std::move(B)`. -/
theorem move_assign_transfers_witness :
    (MoveDemo.move_assign
        (MoveDemo.ctor (MoveDemo.ctor (World.init "") 0 "A" [10, 20] 1) 1 "B" [30, 40, 50] 2)
        0 1).mem 0 = some ⟨"B", [30, 40, 50], some 2⟩ ∧
    Contains (MoveDemo.state_text ⟨"B", [30, 40, 50], some 2⟩) "3 elements" ∧
    Contains (MoveDemo.state_text ⟨"B", [30, 40, 50], some 2⟩) "valid pointer" ∧
    (MoveDemo.move_assign
        (MoveDemo.ctor (MoveDemo.ctor (World.init "") 0 "A" [10, 20] 1) 1 "B" [30, 40, 50] 2)
        0 1).mem 1 = some ⟨"[moved-from]", [], none⟩ :=
  have h := move_assign_transfers
    (MoveDemo.ctor (MoveDemo.ctor (World.init "") 0 "A" [10, 20] 1) 1 "B" [30, 40, 50] 2)
    0 1 ⟨"A", [10, 20], some 1⟩ ⟨"B", [30, 40, 50], some 2⟩
    (by simp [MoveDemo.ctor]) (by simp [MoveDemo.ctor]) (by decide)
  ⟨h.1, by decide, by decide, h.2.2.1⟩

/-- C3. Self move assignment `x = std::move(x)` leaves the whole world as it was: no field of
`x` (or of any object) changes and nothing is written to the stream; so `get_name()`,
`is_moved_from()` and the text of `print_state()` are the same before and after, and
`X("X",{1,2,3,4},7)` is not moved-from after it. -/
theorem self_move_assign_noop (w : World) (x : Addr) :
    MoveDemo.move_assign w x x = w ∧
    (MoveDemo.move_assign w x x).cout = w.cout ∧
    (MoveDemo.move_assign w x x).mem x = w.mem x ∧
    ((MoveDemo.move_assign w x x).mem x).map MoveDemo.get_name
      = (w.mem x).map MoveDemo.get_name ∧
    ((MoveDemo.move_assign w x x).mem x).map MoveDemo.is_moved_from
      = (w.mem x).map MoveDemo.is_moved_from ∧
    (MoveDemo.print_state (MoveDemo.move_assign w x x) x).cout
      = (MoveDemo.print_state w x).cout ∧
    ((MoveDemo.move_assign (MoveDemo.ctor w x "X" [1, 2, 3, 4] 7) x x).mem x).map
      MoveDemo.is_moved_from = some false := by
  have h : ∀ w : World, MoveDemo.move_assign w x x = w := by
    intro w
    unfold MoveDemo.move_assign
    split
    · simp
    · rfl
  rw [h w, h]
  refine ⟨rfl, rfl, rfl, rfl, rfl, rfl, ?_⟩
  simp only [MoveDemo.ctor, World.mem_print, World.mem_set_same, Option.map_some']
  decide

/-- C4, as stated, fails: an object constructed with the label `"[moved-from]"` reports
`is_moved_from() == true` right after construction. -/
theorem ctor_marker_label_is_moved_from :
    ((MoveDemo.ctor (World.init "") 0 "[moved-from]" [1, 2, 3] 7).mem 0).map
      MoveDemo.is_moved_from = some true := by
  simp only [MoveDemo.ctor, World.mem_print, World.mem_set_same, Option.map_some']
  decide

/-- C4, amended. For every label other than `"[moved-from]"`, every element sequence (the
empty one included) and every scalar, the object built by the primary constructor reports
`is_moved_from() == false`. -/
theorem ctor_not_moved_from (w : World) (this : Addr) (name : String) (data : List Int)
    (ptr_value : Int) (hname : name ≠ "[moved-from]") :
    ((MoveDemo.ctor w this name data ptr_value).mem this).map MoveDemo.is_moved_from
      = some false := by
  simp [MoveDemo.ctor, MoveDemo.is_moved_from, hname]

/-- C4 amended, at the input of the test `PassByValue_UsingStdMove_MovesFromCaller` and at an
empty element sequence. -/
theorem ctor_not_moved_from_witness :
    ("ToProcess" ≠ "[moved-from]" ∧
      ((MoveDemo.ctor (World.init "") 0 "ToProcess" [5, 6] 123).mem 0).map
        MoveDemo.is_moved_from = some false) ∧
    ((MoveDemo.ctor (World.init "") 0 "" [] 0).mem 0).map MoveDemo.is_moved_from
        = some false :=
  ⟨⟨by decide, ctor_not_moved_from (World.init "") 0 "ToProcess" [5, 6] 123 (by decide)⟩,
    ctor_not_moved_from (World.init "") 0 "" [] 0 (by decide)⟩

/-- C5, evaluated on the code. The trace line of a move is written after the member
initialisers (or member assignments) have moved out of `other.name_`, so it shows the empty
string, not the label the source held: for the source `("Src", {1,2,3}, 99)` the move
constructor writes `Moved from ''`, and so does move assignment into a distinct target.
Only the order "trace line first, marker second" is as claimed. -/
theorem move_trace_shows_empty_label :
    (MoveDemo.move_ctor (MoveDemo.ctor (World.init "") 0 "Src" [1, 2, 3] 99) 1 0).cout
      = "  [Constructor] Created 'Src' with 3 elements\n"
        ++ "  [Move Constructor] Moved from '' (now empty)\n" ∧
    ¬ Contains
        (MoveDemo.move_ctor (MoveDemo.ctor (World.init "") 0 "Src" [1, 2, 3] 99) 1 0).cout
        "  [Move Constructor] Moved from 'Src' (now empty)" ∧
    (MoveDemo.move_assign
        (MoveDemo.ctor (MoveDemo.ctor (World.init "") 0 "A" [10, 20] 1) 1 "Src" [1, 2, 3] 99)
        0 1).cout
      = "  [Constructor] Created 'A' with 2 elements\n"
        ++ "  [Constructor] Created 'Src' with 3 elements\n"
        ++ "  [Move Assignment] Moved from '' (now empty)\n" ∧
    ¬ Contains
        (MoveDemo.move_assign
          (MoveDemo.ctor (MoveDemo.ctor (World.init "") 0 "A" [10, 20] 1) 1 "Src" [1, 2, 3] 99)
          0 1).cout
        "  [Move Assignment] Moved from 'Src' (now empty)" := by
  refine ⟨by decide, by decide, by decide, by decide⟩

/-- C6. Copy construction from a live object `v`, and copy assignment from `v` into a
distinct live target `t`, leave `v` exactly as it was and make the result equal to `v` in
label, elements and cell (absent if `v`'s is absent, else holding the same integer). -/
theorem copy_preserves_source (w : World) (t v : Addr) (o : MoveDemo)
    (hv : w.mem v = some o) (hne : t ≠ v) :
    (MoveDemo.copy_ctor w t v).mem v = some o ∧
    (MoveDemo.copy_ctor w t v).mem t = some o ∧
    (∀ a : MoveDemo, w.mem t = some a →
      (MoveDemo.copy_assign w t v).mem v = some o ∧
      (MoveDemo.copy_assign w t v).mem t = some o) := by
  have hvt : v ≠ t := fun h => hne h.symm
  refine ⟨?_, ?_, ?_⟩
  · simp [MoveDemo.copy_ctor, hv, hvt]
  · simp [MoveDemo.copy_ctor, hv, copied_ptr]
  · intro a ha
    simp [MoveDemo.copy_assign, hv, ha, hne, hvt, copied_ptr]

/-- C6, at a source with a cell and, after a move, at a source without one. -/
theorem copy_preserves_source_witness :
    (MoveDemo.copy_ctor (MoveDemo.ctor (World.init "") 0 "Original" [10, 20] 100) 1 0).mem 0
      = some ⟨"Original", [10, 20], some 100⟩ ∧
    (MoveDemo.copy_ctor (MoveDemo.ctor (World.init "") 0 "Original" [10, 20] 100) 1 0).mem 1
      = some ⟨"Original", [10, 20], some 100⟩ ∧
    (MoveDemo.copy_assign
        (MoveDemo.move_ctor (MoveDemo.ctor (World.init "") 0 "Original" [10, 20] 100) 1 0)
        1 0).mem 1 = some ⟨"[moved-from]", [], none⟩ :=
  have h1 := copy_preserves_source (MoveDemo.ctor (World.init "") 0 "Original" [10, 20] 100)
    1 0 ⟨"Original", [10, 20], some 100⟩ (by simp [MoveDemo.ctor]) (by decide)
  have h2 := copy_preserves_source
    (MoveDemo.move_ctor (MoveDemo.ctor (World.init "") 0 "Original" [10, 20] 100) 1 0)
    1 0 ⟨"[moved-from]", [], none⟩ (by decide) (by decide)
  ⟨h1.1, h1.2.1,
    (h2.2.2 ⟨"Original", [10, 20], some 100⟩ (by decide)).2⟩

/-- C7. For every label `L`, `create_demo(L)` builds an object with label `L`, the elements
`1,2,3,4,5` and a cell holding `42`; `get_name()` is `L`, and the text of `print_state()`
contains `"5 elements"` and `"valid pointer"`; for `L = "FactoryObj"` that text is
`"  Object 'FactoryObj': 5 elements, valid pointer"`. -/
theorem create_demo_result (w : World) (result : Addr) (L : String) :
    (create_demo w result L).mem result = some ⟨L, [1, 2, 3, 4, 5], some 42⟩ ∧
    ((create_demo w result L).mem result).map MoveDemo.get_name = some L ∧
    ((create_demo w result L).mem result).map MoveDemo.is_moved_from
      = some (L == "[moved-from]") ∧
    Contains (MoveDemo.state_text ⟨L, [1, 2, 3, 4, 5], some 42⟩) "5 elements" ∧
    Contains (MoveDemo.state_text ⟨L, [1, 2, 3, 4, 5], some 42⟩) "valid pointer" ∧
    (MoveDemo.print_state (create_demo w result "FactoryObj") result).cout
      = (create_demo w result "FactoryObj").cout
        ++ "  Object 'FactoryObj': 5 elements, valid pointer\n" := by
  have hmem : ∀ L : String,
      (create_demo w result L).mem result = some ⟨L, [1, 2, 3, 4, 5], some 42⟩ := by
    intro L
    simp [create_demo, MoveDemo.ctor]
  have htext : MoveDemo.state_text ⟨L, [1, 2, 3, 4, 5], some 42⟩
      = "  Object '" ++ L ++ "': " ++ "5" ++ " elements, " ++ "valid pointer" ++ "\n" := by
    have h5 : toString ([1, 2, 3, 4, 5] : List Int).length = "5" := by decide
    simp only [MoveDemo.state_text, h5]
    rfl
  refine ⟨hmem L, ?_, ?_, ?_, ?_, ?_⟩
  · rw [hmem L]
    rfl
  · rw [hmem L]
    simp [MoveDemo.is_moved_from]
  · refine ⟨("  Object '" ++ L ++ "': ").data, (", valid pointer\n").data, ?_⟩
    rw [htext]
    simp [String.data_append]
  · refine ⟨("  Object '" ++ L ++ "': 5 elements, ").data, ("\n").data, ?_⟩
    rw [htext]
    simp [String.data_append]
  · unfold MoveDemo.print_state
    rw [hmem "FactoryObj"]
    rfl

/-- C8. For a live object with label `L`, `n` elements and a cell, `print_state()` appends
to the stream exactly `"  Object 'L': n elements, valid pointer"` and a newline when the
cell is present, `"  Object 'L': n elements, null pointer"` and a newline when it is absent,
and changes no object; the text depends on the label, the element count and the presence
of the cell only. -/
theorem print_state_line (w : World) (this : Addr) (o : MoveDemo) (h : w.mem this = some o) :
    (o.ptr_.isSome = true → (MoveDemo.print_state w this).cout
      = w.cout ++ ("  Object '" ++ o.name_ ++ "': " ++ toString o.data_.length
          ++ " elements, valid pointer" ++ "\n")) ∧
    (o.ptr_ = none → (MoveDemo.print_state w this).cout
      = w.cout ++ ("  Object '" ++ o.name_ ++ "': " ++ toString o.data_.length
          ++ " elements, null pointer" ++ "\n")) ∧
    (MoveDemo.print_state w this).mem = w.mem ∧
    (∀ o2 : MoveDemo, o2.name_ = o.name_ → o2.data_.length = o.data_.length →
      o2.ptr_.isSome = o.ptr_.isSome → o2.state_text = o.state_text) := by
  have hp : MoveDemo.print_state w this = w.print o.state_text := by
    unfold MoveDemo.print_state
    rw [h]
  refine ⟨?_, ?_, ?_, ?_⟩
  · intro hs
    rw [hp]
    simp [MoveDemo.state_text, hs, String.append_assoc]
  · intro hn
    rw [hp]
    simp [MoveDemo.state_text, hn, String.append_assoc]
  · rw [hp]
    rfl
  · intro o2 h1 h2 h3
    simp [MoveDemo.state_text, h1, h2, h3]

/-- C8, at an object with a cell and at a moved-from object. -/
theorem print_state_line_witness :
    (MoveDemo.print_state (MoveDemo.ctor (World.init "") 0 "Src" [1, 2, 3] 99) 0).cout
      = "  [Constructor] Created 'Src' with 3 elements\n"
        ++ "  Object 'Src': 3 elements, valid pointer\n" ∧
    (MoveDemo.print_state
        (MoveDemo.move_ctor (MoveDemo.ctor (World.init "") 0 "Src" [1, 2, 3] 99) 1 0) 0).cout
      = "  [Constructor] Created 'Src' with 3 elements\n"
        ++ "  [Move Constructor] Moved from '' (now empty)\n"
        ++ "  Object '[moved-from]': 0 elements, null pointer\n" :=
  have h1 := print_state_line (MoveDemo.ctor (World.init "") 0 "Src" [1, 2, 3] 99) 0
    ⟨"Src", [1, 2, 3], some 99⟩ (by decide)
  have h2 := print_state_line
    (MoveDemo.move_ctor (MoveDemo.ctor (World.init "") 0 "Src" [1, 2, 3] 99) 1 0) 0
    ⟨"[moved-from]", [], none⟩ (by decide)
  ⟨(h1.1 rfl).trans (by decide), (h2.2.1 rfl).trans (by decide)⟩

/-- The text `demonstrate_copy_vs_move` writes on an empty stream. -/
theorem demonstrate_copy_vs_move_text :
    demonstrate_copy_vs_move "" = "\n" ++ ("=== COPY vs MOVE DEMONSTRATION ==="
      ++ ("\n"
        ++ "\n"
        ++ "1. Creating original object:\n"
        ++ "  [Constructor] Created 'Original' with 5 elements\n"
        ++ "  Object 'Original': 5 elements, valid pointer\n"
        ++ "\n"
        ++ "2. Copy construction:\n"
        ++ "  [Copy Constructor] Copied 'Original' with 5 elements\n"
        ++ "After copy - Original:   Object 'Original': 5 elements, valid pointer\n"
        ++ "After copy - Copy:   Object 'Original': 5 elements, valid pointer\n"
        ++ "\n"
        ++ "3. Move construction:\n"
        ++ "  [Move Constructor] Moved from '' (now empty)\n"
        ++ "After move - Original:   Object '[moved-from]': 0 elements, null pointer\n"
        ++ "After move - Moved:   Object 'Original': 5 elements, valid pointer\n"
        ++ "  [Destructor] Destroying 'Original'\n"
        ++ "  [Destructor] Destroying 'Original'\n"
        ++ "  [Destructor] Destroying '[moved-from]'\n")) := by
  decide

/-- The text `demonstrate_move_constructor` writes on an empty stream. -/
theorem demonstrate_move_constructor_text :
    demonstrate_move_constructor "" = "\n" ++ ("=== MOVE CONSTRUCTOR DEMONSTRATION ==="
      ++ ("\n"
        ++ "\n"
        ++ "Creating object and moving it:\n"
        ++ "  [Constructor] Created 'Source' with 5 elements\n"
        ++ "\n"
        ++ "Before move:\n"
        ++ "  Object 'Source': 5 elements, valid pointer\n"
        ++ "\n"
        ++ "Performing move:\n"
        ++ "  [Move Constructor] Moved from '' (now empty)\n"
        ++ "\n"
        ++ "After move:\n"
        ++ "Source:   Object '[moved-from]': 0 elements, null pointer\n"
        ++ "Destination:   Object 'Source': 5 elements, valid pointer\n"
        ++ "  [Destructor] Destroying 'Source'\n"
        ++ "  [Destructor] Destroying '[moved-from]'\n")) := by
  decide

/-- The text `demonstrate_move_assignment` writes on an empty stream. -/
theorem demonstrate_move_assignment_text :
    demonstrate_move_assignment "" = "\n" ++ ("=== MOVE ASSIGNMENT DEMONSTRATION ==="
      ++ ("\n"
        ++ "\n"
        ++ "Creating two objects:\n"
        ++ "  [Constructor] Created 'Object1' with 3 elements\n"
        ++ "  [Constructor] Created 'Object2' with 4 elements\n"
        ++ "\n"
        ++ "Before move assignment:\n"
        ++ "  Object 'Object1': 3 elements, valid pointer\n"
        ++ "  Object 'Object2': 4 elements, valid pointer\n"
        ++ "\n"
        ++ "Performing move assignment (obj1 = std::move(obj2)):\n"
        ++ "  [Move Assignment] Moved from '' (now empty)\n"
        ++ "\n"
        ++ "After move assignment:\n"
        ++ "obj1:   Object 'Object2': 4 elements, valid pointer\n"
        ++ "obj2:   Object '[moved-from]': 0 elements, null pointer\n"
        ++ "  [Destructor] Destroying '[moved-from]'\n"
        ++ "  [Destructor] Destroying 'Object2'\n")) := by
  decide

/-- The text `demonstrate_rvalue_references` writes on an empty stream. -/
theorem demonstrate_rvalue_references_text :
    demonstrate_rvalue_references "" = "\n" ++ ("=== RVALUE REFERENCES DEMONSTRATION ==="
      ++ ("\n"
        ++ "\n"
        ++ "Function returning by value (RVO/move):\n"
        ++ "Creating demo object in factory function...\n"
        ++ "  [Constructor] Created 'Factory' with 5 elements\n"
        ++ "  Object 'Factory': 5 elements, valid pointer\n"
        ++ "\n"
        ++ "Passing by value (move):\n"
        ++ "  [Move Constructor] Moved from '' (now empty)\n"
        ++ "Processing demo object...\n"
        ++ "  Object 'Factory': 5 elements, valid pointer\n"
        ++ "  [Destructor] Destroying 'Factory'\n"
        ++ "\n"
        ++ "After passing to function:\n"
        ++ "  Object '[moved-from]': 0 elements, null pointer\n"
        ++ "  [Destructor] Destroying '[moved-from]'\n")) := by
  decide

/-- The text `demonstrate_std_move` writes on an empty stream. -/
theorem demonstrate_std_move_text :
    demonstrate_std_move "" = "\n" ++ ("=== STD::MOVE DEMONSTRATION ==="
      ++ ("\n"
        ++ "\n"
        ++ "Creating vector and moving it:\n"
        ++ "Original vector size: 5\n"
        ++ "After std::move:\n"
        ++ "Original vector size: 0\n"
        ++ "Moved vector size: 5\n"
        ++ "\n"
        ++ "Note: std::move doesn't actually move anything!\n"
        ++ "It just casts to rvalue reference, enabling move semantics.\n")) := by
  decide

/-- The text `demonstrate_perfect_forwarding` writes on an empty stream. -/
theorem demonstrate_perfect_forwarding_text :
    demonstrate_perfect_forwarding "" = "\n" ++ ("=== PERFECT FORWARDING DEMONSTRATION ==="
      ++ ("\n"
        ++ "\n"
        ++ "Creating object for forwarding:\n"
        ++ "  [Constructor] Created 'Forwarded' with 3 elements\n"
        ++ "\n"
        ++ "Perfect forwarding with std::move:\n"
        ++ "Forwarding value...\n"
        ++ "  [Move Constructor] Moved from '' (now empty)\n"
        ++ "Processing demo object...\n"
        ++ "  Object 'Forwarded': 3 elements, valid pointer\n"
        ++ "  [Destructor] Destroying 'Forwarded'\n"
        ++ "\n"
        ++ "After perfect forwarding:\n"
        ++ "  Object '[moved-from]': 0 elements, null pointer\n"
        ++ "  [Destructor] Destroying '[moved-from]'\n")) := by
  decide

/-- C9. `run_all_demonstrations()` has no error path (the model is a total function) and
appends to the stream a text in which the opening banner
`"C++ MOVE SEMANTICS EDUCATIONAL DEMO"` comes first, then the six section banners in the
order COPY vs MOVE, MOVE CONSTRUCTOR, MOVE ASSIGNMENT, RVALUE REFERENCES, STD::MOVE, PERFECT
FORWARDING, and after them `"DEMONSTRATIONS COMPLETE"`. -/
theorem run_all_demonstrations_banners (out : String) :
    ∃ s0 s1 s2 s3 s4 s5 s6 s7 s8 : String,
    run_all_demonstrations out = out ++ s0
      ++ "C++ MOVE SEMANTICS EDUCATIONAL DEMO" ++ s1
      ++ "=== COPY vs MOVE DEMONSTRATION ===" ++ s2
      ++ "=== MOVE CONSTRUCTOR DEMONSTRATION ===" ++ s3
      ++ "=== MOVE ASSIGNMENT DEMONSTRATION ===" ++ s4
      ++ "=== RVALUE REFERENCES DEMONSTRATION ===" ++ s5
      ++ "=== STD::MOVE DEMONSTRATION ===" ++ s6
      ++ "=== PERFECT FORWARDING DEMONSTRATION ===" ++ s7
      ++ "DEMONSTRATIONS COMPLETE" ++ s8 := by
  refine ⟨
    ("========================================\n" ++ "    "),
    ("\n" ++ "========================================\n" ++ "\n"),
    ("\n"
      ++ "\n"
      ++ "1. Creating original object:\n"
      ++ "  [Constructor] Created 'Original' with 5 elements\n"
      ++ "  Object 'Original': 5 elements, valid pointer\n"
      ++ "\n"
      ++ "2. Copy construction:\n"
      ++ "  [Copy Constructor] Copied 'Original' with 5 elements\n"
      ++ "After copy - Original:   Object 'Original': 5 elements, valid pointer\n"
      ++ "After copy - Copy:   Object 'Original': 5 elements, valid pointer\n"
      ++ "\n"
      ++ "3. Move construction:\n"
      ++ "  [Move Constructor] Moved from '' (now empty)\n"
      ++ "After move - Original:   Object '[moved-from]': 0 elements, null pointer\n"
      ++ "After move - Moved:   Object 'Original': 5 elements, valid pointer\n"
      ++ "  [Destructor] Destroying 'Original'\n"
      ++ "  [Destructor] Destroying 'Original'\n"
      ++ "  [Destructor] Destroying '[moved-from]'\n"
      ++ "\n"),
    ("\n"
      ++ "\n"
      ++ "Creating object and moving it:\n"
      ++ "  [Constructor] Created 'Source' with 5 elements\n"
      ++ "\n"
      ++ "Before move:\n"
      ++ "  Object 'Source': 5 elements, valid pointer\n"
      ++ "\n"
      ++ "Performing move:\n"
      ++ "  [Move Constructor] Moved from '' (now empty)\n"
      ++ "\n"
      ++ "After move:\n"
      ++ "Source:   Object '[moved-from]': 0 elements, null pointer\n"
      ++ "Destination:   Object 'Source': 5 elements, valid pointer\n"
      ++ "  [Destructor] Destroying 'Source'\n"
      ++ "  [Destructor] Destroying '[moved-from]'\n"
      ++ "\n"),
    ("\n"
      ++ "\n"
      ++ "Creating two objects:\n"
      ++ "  [Constructor] Created 'Object1' with 3 elements\n"
      ++ "  [Constructor] Created 'Object2' with 4 elements\n"
      ++ "\n"
      ++ "Before move assignment:\n"
      ++ "  Object 'Object1': 3 elements, valid pointer\n"
      ++ "  Object 'Object2': 4 elements, valid pointer\n"
      ++ "\n"
      ++ "Performing move assignment (obj1 = std::move(obj2)):\n"
      ++ "  [Move Assignment] Moved from '' (now empty)\n"
      ++ "\n"
      ++ "After move assignment:\n"
      ++ "obj1:   Object 'Object2': 4 elements, valid pointer\n"
      ++ "obj2:   Object '[moved-from]': 0 elements, null pointer\n"
      ++ "  [Destructor] Destroying '[moved-from]'\n"
      ++ "  [Destructor] Destroying 'Object2'\n"
      ++ "\n"),
    ("\n"
      ++ "\n"
      ++ "Function returning by value (RVO/move):\n"
      ++ "Creating demo object in factory function...\n"
      ++ "  [Constructor] Created 'Factory' with 5 elements\n"
      ++ "  Object 'Factory': 5 elements, valid pointer\n"
      ++ "\n"
      ++ "Passing by value (move):\n"
      ++ "  [Move Constructor] Moved from '' (now empty)\n"
      ++ "Processing demo object...\n"
      ++ "  Object 'Factory': 5 elements, valid pointer\n"
      ++ "  [Destructor] Destroying 'Factory'\n"
      ++ "\n"
      ++ "After passing to function:\n"
      ++ "  Object '[moved-from]': 0 elements, null pointer\n"
      ++ "  [Destructor] Destroying '[moved-from]'\n"
      ++ "\n"),
    ("\n"
      ++ "\n"
      ++ "Creating vector and moving it:\n"
      ++ "Original vector size: 5\n"
      ++ "After std::move:\n"
      ++ "Original vector size: 0\n"
      ++ "Moved vector size: 5\n"
      ++ "\n"
      ++ "Note: std::move doesn't actually move anything!\n"
      ++ "It just casts to rvalue reference, enabling move semantics.\n"
      ++ "\n"),
    ("\n"
      ++ "\n"
      ++ "Creating object for forwarding:\n"
      ++ "  [Constructor] Created 'Forwarded' with 3 elements\n"
      ++ "\n"
      ++ "Perfect forwarding with std::move:\n"
      ++ "Forwarding value...\n"
      ++ "  [Move Constructor] Moved from '' (now empty)\n"
      ++ "Processing demo object...\n"
      ++ "  Object 'Forwarded': 3 elements, valid pointer\n"
      ++ "  [Destructor] Destroying 'Forwarded'\n"
      ++ "\n"
      ++ "After perfect forwarding:\n"
      ++ "  Object '[moved-from]': 0 elements, null pointer\n"
      ++ "  [Destructor] Destroying '[moved-from]'\n"
      ++ "\n========================================\n" ++ "         "),
    ("\n" ++ "========================================\n"
      ++ "\nKey Takeaways:\n"
      ++ "• Move semantics transfer ownership instead of copying\n"
      ++ "• Moved-from objects are in a valid but unspecified state\n"
      ++ "• std::move is just a cast to rvalue reference\n"
      ++ "• Move operations should be noexcept when possible\n"
      ++ "• Perfect forwarding preserves value categories\n"), ?_⟩
  have hopen : "    C++ MOVE SEMANTICS EDUCATIONAL DEMO\n"
      = "    " ++ ("C++ MOVE SEMANTICS EDUCATIONAL DEMO" ++ "\n") := by decide
  have hclose : "         DEMONSTRATIONS COMPLETE\n"
      = "         " ++ ("DEMONSTRATIONS COMPLETE" ++ "\n") := by decide
  unfold run_all_demonstrations
  dsimp only
  rw [demonstrate_perfect_forwarding_append, demonstrate_std_move_append,
    demonstrate_rvalue_references_append, demonstrate_move_assignment_append,
    demonstrate_move_constructor_append, demonstrate_copy_vs_move_append,
    demonstrate_perfect_forwarding_text, demonstrate_std_move_text,
    demonstrate_rvalue_references_text, demonstrate_move_assignment_text,
    demonstrate_move_constructor_text, demonstrate_copy_vs_move_text, hopen, hclose]
  simp only [String.append_assoc]

/-! ## The reachable-state invariant -/

theorem cellInv_marker : MoveDemo.CellInv ⟨"[moved-from]", [], none⟩ :=
  fun _ => ⟨rfl, rfl⟩

theorem cellInv_of_cell (n : String) (d : List Int) (v : Int) :
    MoveDemo.CellInv ⟨n, d, some v⟩ := by
  intro h
  cases h

theorem World.cellInv_set (w : World) (a : Addr) (o : MoveDemo) (hw : w.CellInv)
    (ho : o.CellInv) : (w.set a o).CellInv := by
  intro b o' hb
  by_cases hba : b = a
  · subst hba
    rw [World.mem_set_same] at hb
    cases hb
    exact ho
  · rw [World.mem_set_other _ _ _ _ hba] at hb
    exact hw b o' hb

theorem World.cellInv_print (w : World) (s : String) (hw : w.CellInv) :
    (w.print s).CellInv := hw

theorem World.cellInv_free (w : World) (a : Addr) (hw : w.CellInv) : (w.free a).CellInv := by
  intro b o hb
  by_cases hba : b = a
  · simp [World.free, hba] at hb
  · simp only [World.free, hba, if_false] at hb
    exact hw b o hb

theorem World.cellInv_init (out : String) : (World.init out).CellInv := by
  intro a o h
  cases h

/-- The store shape both move operations produce: the transient empty state of the source
is overwritten before the operation returns. -/
theorem World.cellInv_moved (w : World) (t v : Addr) (o x : MoveDemo) (s : String)
    (hw : w.CellInv) (ho : o.CellInv) :
    ((((w.set t o).set v x).print s).set v ⟨"[moved-from]", [], none⟩).CellInv := by
  intro b o' hb
  by_cases hbv : b = v
  · subst hbv
    rw [World.mem_set_same] at hb
    cases hb
    exact cellInv_marker
  · rw [World.mem_set_other _ _ _ _ hbv, World.mem_print,
      World.mem_set_other _ _ _ _ hbv] at hb
    exact World.cellInv_set w t o hw ho b o' hb

theorem cellInv_run (w : World) (op : Op) (hw : w.CellInv) : (op.run w).CellInv := by
  cases op with
  | construct this name data v =>
    exact World.cellInv_print _ _ (World.cellInv_set _ _ _ hw (cellInv_of_cell _ _ _))
  | copy_construct this other =>
    show (MoveDemo.copy_ctor w this other).CellInv
    unfold MoveDemo.copy_ctor
    cases ho : w.mem other with
    | none => exact hw
    | some o =>
      refine World.cellInv_print _ _ (World.cellInv_set _ _ _ hw ?_)
      rw [copied_ptr]
      exact hw other o ho
  | move_construct this other =>
    show (MoveDemo.move_ctor w this other).CellInv
    cases ho : w.mem other with
    | none =>
      unfold MoveDemo.move_ctor
      rw [ho]
      exact hw
    | some o =>
      rw [move_ctor_eq w this other o ho]
      exact World.cellInv_moved w this other o _ _ hw (hw other o ho)
  | copy_assign this other =>
    show (MoveDemo.copy_assign w this other).CellInv
    unfold MoveDemo.copy_assign
    split
    · rename_i t o ht ho
      split
      · refine World.cellInv_print _ _ (World.cellInv_set _ _ _ hw ?_)
        rw [copied_ptr]
        exact hw other o ho
      · exact hw
    · exact hw
  | move_assign this other =>
    show (MoveDemo.move_assign w this other).CellInv
    by_cases hne : this = other
    · subst hne
      have h : MoveDemo.move_assign w this this = w := by
        unfold MoveDemo.move_assign
        split
        · simp
        · rfl
      rw [h]
      exact hw
    · cases ht : w.mem this with
      | none =>
        unfold MoveDemo.move_assign
        rw [ht]
        exact hw
      | some a =>
        cases ho : w.mem other with
        | none =>
          unfold MoveDemo.move_assign
          rw [ht, ho]
          exact hw
        | some b =>
          rw [move_assign_eq w this other a b ht ho hne]
          exact World.cellInv_moved w this other b _ _ hw (hw other b ho)
  | create result name =>
    exact World.cellInv_print _ _ (World.cellInv_set _ _ _
      (World.cellInv_print _ _ hw) (cellInv_of_cell _ _ _))
  | destroy this =>
    show (MoveDemo.dtor w this).CellInv
    unfold MoveDemo.dtor
    cases w.mem this with
    | none => exact hw
    | some o => exact World.cellInv_free _ _ (World.cellInv_print _ _ hw)

theorem cellInv_foldl (ops : List Op) : ∀ w : World, w.CellInv → (ops.foldl Op.run w).CellInv := by
  induction ops with
  | nil => exact fun _ hw => hw
  | cons op ops ih => exact fun w hw => ih (op.run w) (cellInv_run w op hw)

/-- C10. On every object that is live after any finite sequence of primary constructions,
copy and move constructions, copy and move assignments (self-assignment included),
`create_demo` calls and destructions: if the cell is absent then the label is
`"[moved-from]"` and there are no elements; so `is_moved_from()` is true exactly when the
label is `"[moved-from]"`, and whenever its second disjunct holds the first holds too. -/
theorem reachable_cell_invariant (ops : List Op) (a : Addr) (o : MoveDemo)
    (h : (run_ops ops).mem a = some o) :
    (o.ptr_ = none → o.name_ = "[moved-from]" ∧ o.data_ = []) ∧
    (o.is_moved_from = true ↔ o.name_ = "[moved-from]") ∧
    ((o.data_.isEmpty && !o.ptr_.isSome) = true → (o.name_ == "[moved-from]") = true) := by
  have hinv : o.CellInv := cellInv_foldl ops _ (World.cellInv_init "") a o h
  have hsecond : (o.data_.isEmpty && !o.ptr_.isSome) = true → o.name_ = "[moved-from]" := by
    intro h2
    have hp : o.ptr_ = none := by
      cases hq : o.ptr_ with
      | none => rfl
      | some v => simp [hq] at h2
    exact (hinv hp).1
  refine ⟨hinv, ⟨?_, ?_⟩, ?_⟩
  · intro hm
    unfold MoveDemo.is_moved_from at hm
    rcases Bool.or_eq_true _ _ |>.mp hm with h1 | h2
    · exact beq_iff_eq.mp h1
    · exact hsecond h2
  · intro hn
    unfold MoveDemo.is_moved_from
    rw [hn]
    rfl
  · intro h2
    exact beq_iff_eq.mpr (hsecond h2)

/-- C10, at the moved-from source and at the target of
`MoveDemo a("A", {1,2}, 5); MoveDemo b(std::move(a));`. -/
theorem reachable_cell_invariant_witness :
    ((run_ops [Op.construct 0 "A" [1, 2] 5, Op.move_construct 1 0]).mem 0
        = some ⟨"[moved-from]", [], none⟩ ∧
      (MoveDemo.is_moved_from ⟨"[moved-from]", [], none⟩ = true ↔
        (⟨"[moved-from]", [], none⟩ : MoveDemo).name_ = "[moved-from]")) ∧
    (MoveDemo.is_moved_from ⟨"A", [1, 2], some 5⟩ = true ↔
      (⟨"A", [1, 2], some 5⟩ : MoveDemo).name_ = "[moved-from]") :=
  ⟨⟨by decide,
    (reachable_cell_invariant [Op.construct 0 "A" [1, 2] 5, Op.move_construct 1 0] 0
      ⟨"[moved-from]", [], none⟩ (by decide)).2.1⟩,
    (reachable_cell_invariant [Op.construct 0 "A" [1, 2] 5, Op.move_construct 1 0] 1
      ⟨"A", [1, 2], some 5⟩ (by decide)).2.1⟩

end MoveSemantics
